import Mathlib

/-!
# golang-gorm: the savepoint examples (session02) and the CRUD walkthrough (session01)

The repository's programs are scripts of calls into an object-relational
mapping library over a local SQL database.  The scripts are embedded below
function by function, with explicit state passing; the library calls they make
are modelled as operations on a small database state: the committed table, the
outer transaction with its working table and list of savepoints, the sequence
of calls made, and the log.

A database call can fail for a reason the state explains (a unique-email
conflict, a savepoint that does not exist, a transaction that is not active) or
because the environment makes it fail: the state carries a fault plan telling,
for the n-th call of the run, whether that call returns an error, and a flag
telling whether the library call made inside the nested function panics.
Statements about runs in which no call fails take the empty plan `noFaults`;
statements about error handling hold for every plan.
Timestamps (CreatedAt, UpdatedAt) are left out of the rows; DeletedAt is kept
as the flag `Deleted`.
-/

namespace Session02

/-- User: `models.User` of session02, `gorm.Model` (ID, DeletedAt) followed by
Name, Email (unique) and Balance. -/
structure User where
  ID : Nat := 0
  Deleted : Bool := false
  Name : String
  Email : String
  Balance : Int := 0
deriving DecidableEq, Repr

/-- Table: the users table, its rows in primary-key order and the
auto-increment counter the engine keeps for it. -/
structure Table where
  rows : List User
  seq : Nat
deriving DecidableEq, Repr

/-- Largest primary key among the rows. -/
def maxID (rows : List User) : Nat :=
  rows.foldl (fun m u => max m u.ID) 0

/-- The largest primary key the engine can give: the largest signed 64-bit
integer. -/
def maxKey : Nat := 9223372036854775807

/-- The largest primary key ever used in the table, which is what the engine's
auto-increment counter holds. -/
def Table.counter (t : Table) : Nat :=
  max t.seq (maxID t.rows)

/-- Primary key the engine gives to the next inserted row: one more than
every key ever used. -/
def Table.nextID (t : Table) : Nat :=
  t.counter + 1

/-- Error kinds: those of the spec (section 7), the unique-email violation, the
engine's "database or disk is full" (no primary key is left), a generic
database error, and the error built by `fmt.Errorf`. -/
inductive Err
  | ConnectionError
  | InvalidStateError
  | DuplicateNameError
  | CommitError
  | RollbackError
  | UniqueViolation
  | Full
  | DatabaseError
  | Errorf (msg : String)
deriving DecidableEq, Repr

/-- Savepoint names: the ones the caller chooses and the ones the nested
transaction helper generates for itself. -/
inductive SpName
  | named (name : String)
  | internal (n : Nat)
deriving DecidableEq, Repr

/-- Who issued a savepoint call: the example function or the library's nested
transaction helper. -/
inductive Origin
  | caller
  | helper
deriving DecidableEq, Repr

/-- Handles: the process-wide connection `infra.DB` and the transaction
`outerTx` opened from it. -/
inductive Handle
  | conn
  | outerTx
deriving DecidableEq, Repr

/-- Database calls made by the programs. -/
inductive Call
  | Open
  | AutoMigrate
  | DeleteAll
  | Find
  | Begin
  | Create (h : Handle) (u : User)
  | Update (h : Handle) (name : String) (balance : Int)
  | SavePoint (o : Origin) (name : SpName)
  | RollbackTo (o : Origin) (name : SpName)
  | Commit
  | Rollback
deriving DecidableEq, Repr

/-- Result of a database call: the `Error` and `RowsAffected` fields of the
returned `*gorm.DB`. -/
structure Result where
  Error : Option Err
  RowsAffected : Nat
deriving DecidableEq, Repr

/-- One entry of the call trace: the call, its result, and the table as the
open transaction sees it right after the call (the committed table when no
transaction is active). -/
structure Event where
  call : Call
  result : Result
  view : Table
deriving DecidableEq, Repr

/-- Lines written by `log` and `fmt`. -/
inductive LogEntry
  | Println (msg : String)
  | Printf (format : String) (err : Err)
  | Fatalf (format : String) (err : Err)
  | Out (msg : String)
  | OutUser (u : User)
deriving DecidableEq, Repr

/-- Transaction states of the spec (section 3). -/
inductive TxStatus
  | active
  | committed
  | rolled_back
deriving DecidableEq, Repr

/-- The outer transaction: its status, its working table, and its savepoints,
newest first, each with the table captured when it was created. -/
structure Tx where
  status : TxStatus
  work : Table
  savepoints : List (SpName × Table)
deriving DecidableEq, Repr

/-- State of a run: the committed (persisted) table, the outer transaction if
one was opened, the calls made so far, the log, and the environment: which
calls fail, and whether the library call inside the nested function panics. -/
structure DB where
  committed : Table
  tx : Option Tx
  trace : List Event
  log : List LogEntry
  faults : Nat → Bool
  panics : Bool

/-- How a function of the program ends: it returns, the process exits through
`log.Fatalf`, or a panic leaves it. -/
inductive Exit
  | returned
  | fatal
  | panicked
deriving DecidableEq, Repr

/-- How the function passed to `Transaction` ends: it returns an error value
(nil is `none`) or panics. -/
inductive FnOutcome
  | returned (err : Option Err)
  | panicked
deriving DecidableEq, Repr

/-- A process starting on the persisted table `t`. -/
def DB.start (t : Table) (faults : Nat → Bool) (panics : Bool) : DB :=
  { committed := t, tx := none, trace := [], log := [], faults := faults, panics := panics }

/-- The plan in which no database call fails. -/
def noFaults : Nat → Bool := fun _ => false

/-- The working table of the outer transaction while it is active. -/
def DB.work (db : DB) : Option Table :=
  match db.tx with
  | some tx => if tx.status = TxStatus.active then some tx.work else none
  | none => none

/-- The table a call sees: the working table of the active transaction,
otherwise the committed table. -/
def DB.view (db : DB) : Table :=
  match db.work with
  | some t => t
  | none => db.committed

/-- The table behind a handle; a transaction handle that is no longer active
has none. -/
def DB.read (db : DB) : Handle → Option Table
  | Handle.conn => some db.committed
  | Handle.outerTx => db.work

/-- Store a table behind a handle: the connection writes through to the
committed table, the transaction to its working table. -/
def DB.write (db : DB) (h : Handle) (t : Table) : DB :=
  match h with
  | Handle.conn => { db with committed := t }
  | Handle.outerTx =>
    match db.tx with
    | some tx => { db with tx := some { tx with work := t } }
    | none => db

/-- Whether the environment fails the call about to be made. -/
def DB.faulty (db : DB) : Bool :=
  db.faults db.trace.length

/-- Append a call and its result to the trace. -/
def DB.record (db : DB) (c : Call) (r : Result) : DB :=
  { db with trace := db.trace ++ [{ call := c, result := r, view := db.view }] }

/-- The result of a call that succeeded on `n` rows. -/
def ok (n : Nat) : Result :=
  { Error := none, RowsAffected := n }

/-- The result of a call that failed with `e`. -/
def failed (e : Err) : Result :=
  { Error := some e, RowsAffected := 0 }

/-- A call that fails with `e` and changes nothing. -/
def DB.fail (db : DB) (c : Call) (e : Err) : Result × DB :=
  (failed e, db.record c (failed e))

/-- A call that succeeds on `n` rows, leaving the state `db`. -/
def DB.done (db : DB) (c : Call) (n : Nat) : Result × DB :=
  (ok n, db.record c (ok n))

/-- The calls of a run with their results, in order. -/
def DB.calls (db : DB) : List (Call × Result) :=
  db.trace.map (fun e => (e.call, e.result))

/-- Whether `c` was invoked during the run. -/
def DB.invoked (db : DB) (c : Call) : Bool :=
  db.calls.any (fun p => p.1 == c)

/-- Append to the log. -/
def DB.logged (db : DB) (l : LogEntry) : DB :=
  { db with log := db.log ++ [l] }

/-! ## The library calls

The library and the database engine are not part of the repository.  The
transaction calls follow section 4.1 of the spec; the row calls follow the
library's documented behaviour for a model with a soft-delete column. -/

/-- Modelled from the spec: `begin() -> Transaction`, the library's `Begin`,
absent from the repository.  Opens a transaction whose working table starts
as the committed table; fails with `ConnectionError` when the connection is
not available, and a second transaction is not opened while one is active. -/
def Begin (db : DB) : Result × DB :=
  if db.faulty then db.fail Call.Begin Err.ConnectionError
  else
    match db.work with
    | some _ => db.fail Call.Begin Err.InvalidStateError
    | none =>
      ({ db with tx := some { status := TxStatus.active, work := db.committed, savepoints := [] } }).done
        Call.Begin 0

/-- Modelled from the spec: the library's `Create` for one record, absent from
the repository.  The new row gets the next primary key, and the insert fails
with `Full` once the largest key has been used; `Email` is unique over all
rows, soft-deleted ones included. -/
def Create (h : Handle) (u : User) (db : DB) : Result × DB :=
  if db.faulty then db.fail (Call.Create h u) Err.DatabaseError
  else
    match db.read h with
    | none => db.fail (Call.Create h u) Err.InvalidStateError
    | some t =>
      if maxKey ≤ t.counter then db.fail (Call.Create h u) Err.Full
      else if t.rows.any (fun r => r.Email == u.Email) then db.fail (Call.Create h u) Err.UniqueViolation
      else
        (db.write h { rows := t.rows ++ [{ u with ID := t.nextID }], seq := t.nextID }).done
          (Call.Create h u) 1

/-- Rows selected by `Where("name = ?", name)` on the model: the library adds
`deleted_at IS NULL` for a model with a soft-delete column. -/
def selected (name : String) (r : User) : Bool :=
  !r.Deleted && r.Name == name

/-- Modelled from the spec: the library's
`Model(&User{}).Where("name = ?", name).Update("balance", balance)`, absent
from the repository.  Sets the balance of every selected row and reports their
number. -/
def updateRows (h : Handle) (name : String) (balance : Int) (db : DB) : Result × DB :=
  if db.faulty then db.fail (Call.Update h name balance) Err.DatabaseError
  else
    match db.read h with
    | none => db.fail (Call.Update h name balance) Err.InvalidStateError
    | some t =>
      (db.write h
          { t with rows := t.rows.map (fun r => if selected name r then { r with Balance := balance } else r) }).done
        (Call.Update h name balance) (t.rows.filter (selected name)).length

/-- The update as the nested function calls it: `none` is a panic raised by
the library call, which the environment decides. -/
def Update (h : Handle) (name : String) (balance : Int) (db : DB) : Option Result × DB :=
  if db.panics then (none, db)
  else (some (updateRows h name balance db).1, (updateRows h name balance db).2)

/-- Modelled from the spec: `savepoint(tx, name)`, the library's `SavePoint`,
absent from the repository.  Captures the working table under `name`; fails
with `InvalidStateError` if the transaction is not active and with
`DuplicateNameError` if the name is already in use. -/
def SavePoint (o : Origin) (name : SpName) (db : DB) : Result × DB :=
  if db.faulty then db.fail (Call.SavePoint o name) Err.DatabaseError
  else
    match db.tx with
    | none => db.fail (Call.SavePoint o name) Err.InvalidStateError
    | some tx =>
      if tx.status ≠ TxStatus.active then db.fail (Call.SavePoint o name) Err.InvalidStateError
      else if tx.savepoints.any (fun p => p.1 == name) then
        db.fail (Call.SavePoint o name) Err.DuplicateNameError
      else
        ({ db with tx := some { tx with savepoints := (name, tx.work) :: tx.savepoints } }).done
          (Call.SavePoint o name) 0

/-- Modelled from the spec: `rollbackTo(tx, name)`, the library's `RollbackTo`,
absent from the repository.  Restores the table captured by the savepoint and
drops the savepoints created after it; the transaction stays active and the
savepoint stays.  Fails with `RollbackError` when the savepoint does not exist
or the database rejects the call. -/
def RollbackTo (o : Origin) (name : SpName) (db : DB) : Result × DB :=
  if db.faulty then db.fail (Call.RollbackTo o name) Err.RollbackError
  else
    match db.tx with
    | none => db.fail (Call.RollbackTo o name) Err.InvalidStateError
    | some tx =>
      if tx.status ≠ TxStatus.active then db.fail (Call.RollbackTo o name) Err.InvalidStateError
      else
        match tx.savepoints.dropWhile (fun p => p.1 != name) with
        | [] => db.fail (Call.RollbackTo o name) Err.RollbackError
        | (n, snap) :: older =>
          ({ db with tx := some { tx with work := snap, savepoints := (n, snap) :: older } }).done
            (Call.RollbackTo o name) 0

/-- Modelled from the spec: `commit(tx)`, the library's `Commit`, absent from
the repository.  Makes the working table the committed table; fails with
`CommitError` if the connection rejects the commit, which persists nothing. -/
def Commit (db : DB) : Result × DB :=
  if db.faulty then db.fail Call.Commit Err.CommitError
  else
    match db.tx with
    | none => db.fail Call.Commit Err.InvalidStateError
    | some tx =>
      if tx.status ≠ TxStatus.active then db.fail Call.Commit Err.InvalidStateError
      else
        ({ db with committed := tx.work, tx := some { tx with status := TxStatus.committed } }).done
          Call.Commit 0

/-- Modelled from the spec: `rollback(tx)`, the library's `Rollback`, absent
from the repository.  Ends the transaction and discards its working table. -/
def Rollback (db : DB) : Result × DB :=
  if db.faulty then db.fail Call.Rollback Err.DatabaseError
  else
    match db.tx with
    | none => db.fail Call.Rollback Err.InvalidStateError
    | some tx =>
      if tx.status ≠ TxStatus.active then db.fail Call.Rollback Err.InvalidStateError
      else ({ db with tx := some { tx with status := TxStatus.rolled_back } }).done Call.Rollback 0

/-- Modelled from the spec: `runNested(tx, fn)` in implicit mode, the library's
`Transaction` called on a handle that is already a transaction, absent from
the repository.  It establishes a savepoint of its own before invoking `fc`
and rolls back to it when `fc` returns an error or panics; the error is
returned to the caller and a panic goes on to the caller. -/
def Transaction (fc : DB → FnOutcome × DB) (db : DB) : FnOutcome × DB :=
  let spID := SpName.internal db.trace.length
  match SavePoint Origin.helper spID db with
  | (r, db1) =>
    match r.Error with
    | some e => (FnOutcome.returned (some e), db1)
    | none =>
      match fc db1 with
      | (FnOutcome.panicked, db2) => (FnOutcome.panicked, (RollbackTo Origin.helper spID db2).2)
      | (FnOutcome.returned (some e), db2) =>
        (FnOutcome.returned (some e), (RollbackTo Origin.helper spID db2).2)
      | (FnOutcome.returned none, db2) => (FnOutcome.returned none, db2)

/-- Modelled from the spec: opening the connection (`gorm.Open`), absent from
the repository. -/
def Open (db : DB) : Result × DB :=
  if db.faulty then db.fail Call.Open Err.ConnectionError else db.done Call.Open 0

/-- Modelled from the spec: `AutoMigrate(&models.User{})`, absent from the
repository.  Creates or updates the table from the record's declaration and
keeps the rows. -/
def AutoMigrate (db : DB) : Result × DB :=
  if db.faulty then db.fail Call.AutoMigrate Err.DatabaseError else db.done Call.AutoMigrate 0

/-- Modelled from the spec: `Unscoped().Where("1 = 1").Delete(&models.User{})`
on the connection, absent from the repository.  Removes every row, soft-deleted
ones included; the auto-increment counter keeps the largest key ever used. -/
def DeleteAll (db : DB) : Result × DB :=
  if db.faulty then db.fail Call.DeleteAll Err.DatabaseError
  else
    ({ db with committed := { rows := [], seq := db.committed.counter } }).done Call.DeleteAll
      db.committed.rows.length

/-- Modelled from the spec: `Find(&users)` on the connection, absent from the
repository.  Returns the rows that are not soft-deleted, in primary-key
order. -/
def Find (db : DB) : Result × List User × DB :=
  if db.faulty then ((db.fail Call.Find Err.DatabaseError).1, [], (db.fail Call.Find Err.DatabaseError).2)
  else
    let users := db.committed.rows.filter (fun r => !r.Deleted)
    ((db.done Call.Find users.length).1, users, (db.done Call.Find users.length).2)

/-! ## session02/cmd/gorm-practice/main.go and infra/db.go -/

/-- The function `explicitSavepointExample` passes to `outerTx.Transaction`
(main.go, lines 39-48). -/
def explicitNested (tx : DB) : FnOutcome × DB :=
  match Update Handle.outerTx "NonExistentUser" 500 tx with
  | (none, tx1) => (FnOutcome.panicked, tx1)
  | (some result, tx1) =>
    match result.Error with
    | some e => (FnOutcome.returned (some e), tx1)
    | none =>
      if result.RowsAffected == 0 then
        (FnOutcome.returned (some (Err.Errorf "Explicit: 업데이트된 레코드가 없으므로 롤백")), tx1)
      else (FnOutcome.returned none, tx1)

/-- The function `implicitSavepointExample` passes to `outerTx.Transaction`
(main.go, lines 85-94). -/
def implicitNested (tx : DB) : FnOutcome × DB :=
  match Update Handle.outerTx "NonExistentUser" 500 tx with
  | (none, tx1) => (FnOutcome.panicked, tx1)
  | (some result, tx1) =>
    match result.Error with
    | some e => (FnOutcome.returned (some e), tx1)
    | none =>
      if result.RowsAffected == 0 then
        (FnOutcome.returned (some (Err.Errorf "Implicit: 업데이트된 레코드가 없으므로 롤백")), tx1)
      else (FnOutcome.returned none, tx1)

/-- Lines 57-60 of `explicitSavepointExample`: commit the outer transaction. -/
def explicitCommit (db : DB) : Exit × DB :=
  match Commit db with
  | (r, db1) =>
    match r.Error with
    | some err => (Exit.fatal, db1.logged (LogEntry.Fatalf "Explicit: 커밋 실패: %v" err))
    | none =>
      (Exit.returned,
        db1.logged (LogEntry.Println "Explicit: 외부 트랜잭션 커밋 완료 (사용자 생성은 유지되고, 업데이트는 롤백됨)"))

/-- The function `explicitSavepointExample` (main.go, lines 14-61). -/
def explicitSavepointExample (db : DB) : Exit × DB :=
  let db0 := db.logged (LogEntry.Println "==== Explicit SavePoint Example ====")
  match Begin db0 with
  | (outerTx, db1) =>
    match outerTx.Error with
    | some e => (Exit.fatal, db1.logged (LogEntry.Fatalf "Explicit: 외부 트랜잭션 시작 실패: %v" e))
    | none =>
      let user : User := { Name := "ExplicitUser", Email := "explicit@example.com", Balance := 100 }
      match Create Handle.outerTx user db1 with
      | (created, db2) =>
        match created.Error with
        | some err =>
          (Exit.fatal, (Rollback db2).2.logged (LogEntry.Fatalf "Explicit: 사용자 생성 실패: %v" err))
        | none =>
          match SavePoint Origin.caller (SpName.named "sp_explicit") db2 with
          | (sp, db3) =>
            match sp.Error with
            | some err =>
              (Exit.fatal, (Rollback db3).2.logged (LogEntry.Fatalf "Explicit: SavePoint 생성 실패: %v" err))
            | none =>
              match Transaction explicitNested db3 with
              | (FnOutcome.panicked, db4) => (Exit.panicked, db4)
              | (FnOutcome.returned none, db4) => explicitCommit db4
              | (FnOutcome.returned (some err), db4) =>
                let db5 := db4.logged (LogEntry.Printf "Explicit: 내부 트랜잭션 에러 발생: %v" err)
                match RollbackTo Origin.caller (SpName.named "sp_explicit") db5 with
                | (rb, db6) =>
                  match rb.Error with
                  | some rbErr =>
                    (Exit.fatal,
                      (Rollback db6).2.logged (LogEntry.Fatalf "Explicit: SavePoint 롤백 실패: %v" rbErr))
                  | none => explicitCommit db6

/-- Lines 100-103 of `implicitSavepointExample`: commit the outer
transaction. -/
def implicitCommit (db : DB) : Exit × DB :=
  match Commit db with
  | (r, db1) =>
    match r.Error with
    | some err => (Exit.fatal, db1.logged (LogEntry.Fatalf "Implicit: 커밋 실패: %v" err))
    | none =>
      (Exit.returned,
        db1.logged (LogEntry.Println "Implicit: 외부 트랜잭션 커밋 완료 (사용자 생성은 유지되고, 업데이트는 롤백됨)"))

/-- The function `implicitSavepointExample` (main.go, lines 66-104). -/
def implicitSavepointExample (db : DB) : Exit × DB :=
  let db0 := db.logged (LogEntry.Println "==== Implicit SavePoint Example ====")
  match Begin db0 with
  | (outerTx, db1) =>
    match outerTx.Error with
    | some e => (Exit.fatal, db1.logged (LogEntry.Fatalf "Implicit: 외부 트랜잭션 시작 실패: %v" e))
    | none =>
      let user : User := { Name := "ImplicitUser", Email := "implicit@example.com", Balance := 100 }
      match Create Handle.outerTx user db1 with
      | (created, db2) =>
        match created.Error with
        | some err =>
          (Exit.fatal, (Rollback db2).2.logged (LogEntry.Fatalf "Implicit: 사용자 생성 실패: %v" err))
        | none =>
          match Transaction implicitNested db2 with
          | (FnOutcome.panicked, db3) => (Exit.panicked, db3)
          | (FnOutcome.returned none, db3) => implicitCommit db3
          | (FnOutcome.returned (some err), db3) =>
            implicitCommit
              ((db3.logged (LogEntry.Printf "Implicit: 내부 트랜잭션 에러 발생: %v" err)).logged
                (LogEntry.Println "Implicit: 에러를 무시하고 외부 트랜잭션을 계속 진행합니다."))

/-- The function `infra.InitDB` (infra/db.go, lines 12-19). -/
def InitDB (db : DB) : Exit × DB :=
  match Open db with
  | (r, db1) =>
    match r.Error with
    | some err => (Exit.fatal, db1.logged (LogEntry.Fatalf "데이터베이스 연결 실패: %v" err))
    | none => (Exit.returned, db1.logged (LogEntry.Println "데이터베이스 연결 성공"))

/-- Lines 122-130 of `main`: read the users back and print them. -/
def mainReport (db : DB) : Exit × DB :=
  match Find db with
  | (r, users, db1) =>
    match r.Error with
    | some err => (Exit.fatal, db1.logged (LogEntry.Fatalf "사용자 조회 실패: %v" err))
    | none =>
      (Exit.returned,
        users.foldl (fun d u => d.logged (LogEntry.OutUser u)) (db1.logged (LogEntry.Out "최종 사용자 레코드:")))

/-- The function `main` of session02 (main.go, lines 106-131). -/
def main (db : DB) : Exit × DB :=
  match InitDB db with
  | (Exit.returned, db1) =>
    match AutoMigrate db1 with
    | (m, db2) =>
      match m.Error with
      | some err => (Exit.fatal, db2.logged (LogEntry.Fatalf "AutoMigrate 실패: %v" err))
      | none =>
        match DeleteAll db2 with
        | (d, db3) =>
          match d.Error with
          | some err => (Exit.fatal, db3.logged (LogEntry.Fatalf "기존 사용자 삭제 실패: %v" err))
          | none =>
            match explicitSavepointExample db3 with
            | (Exit.returned, db4) =>
              match implicitSavepointExample db4 with
              | (Exit.returned, db5) => mainReport db5
              | (e, db5) => (e, db5)
            | (e, db4) => (e, db4)
  | (e, db1) => (e, db1)

/-- The body shared by the two nested functions, which differ in the message
of the error they build. -/
def nestedUpdate (msg : String) (tx : DB) : FnOutcome × DB :=
  match Update Handle.outerTx "NonExistentUser" 500 tx with
  | (none, tx1) => (FnOutcome.panicked, tx1)
  | (some result, tx1) =>
    match result.Error with
    | some e => (FnOutcome.returned (some e), tx1)
    | none =>
      if result.RowsAffected == 0 then (FnOutcome.returned (some (Err.Errorf msg)), tx1)
      else (FnOutcome.returned none, tx1)

/-- The shapes a run of the nested transaction helper on either nested
function can take: `pre` are the calls made before it, `o` is what the helper
hands to its caller, `calls` are the calls made up to its end. -/
def NestedRun (pre : List (Call × Result)) (o : FnOutcome) (calls : List (Call × Result)) : Prop :=
  ∃ spID : SpName,
    (∃ h, h.Error ≠ none ∧ o = FnOutcome.returned h.Error
      ∧ calls = pre ++ [(Call.SavePoint Origin.helper spID, h)])
    ∨ (∃ h hr, h.Error = none ∧ o = FnOutcome.panicked
      ∧ calls = pre ++ [(Call.SavePoint Origin.helper spID, h), (Call.RollbackTo Origin.helper spID, hr)])
    ∨ (∃ h u hr e, h.Error = none ∧ (u.Error ≠ none ∨ u.RowsAffected = 0)
      ∧ o = FnOutcome.returned (some e)
      ∧ calls = pre ++ [(Call.SavePoint Origin.helper spID, h),
          (Call.Update Handle.outerTx "NonExistentUser" 500, u), (Call.RollbackTo Origin.helper spID, hr)])
    ∨ (∃ h u, h.Error = none ∧ u.Error = none ∧ u.RowsAffected ≠ 0 ∧ o = FnOutcome.returned none
      ∧ calls = pre ++ [(Call.SavePoint Origin.helper spID, h),
          (Call.Update Handle.outerTx "NonExistentUser" 500, u)])

/-- The user `explicitSavepointExample` creates. -/
def explicitUser : User :=
  { Name := "ExplicitUser", Email := "explicit@example.com", Balance := 100 }

/-- The user `implicitSavepointExample` creates. -/
def implicitUser : User :=
  { Name := "ImplicitUser", Email := "implicit@example.com", Balance := 100 }

/-- The savepoint `explicitSavepointExample` names. -/
def spExplicit : SpName :=
  SpName.named "sp_explicit"

/-- The end of both examples: `Commit` is called after the calls `n`; the
function returns when it succeeds, and the process exits with the committed
table `c0` untouched when it fails. -/
def CommitTail (c0 : Table) (n : List (Call × Result)) (X : Exit × DB) : Prop :=
  ∃ cm, X.2.calls = n ++ [(Call.Commit, cm)] ∧ (cm.Error = none → X.1 = Exit.returned)
    ∧ (cm.Error ≠ none → X.1 = Exit.fatal ∧ X.2.committed = c0)

/-- The paths through `explicitSavepointExample`, read off its text: for a
run `X` started in `db`, the calls made, how the function ended, and the
committed table on the paths that do not commit. -/
def ExplicitRun (db : DB) (X : Exit × DB) : Prop :=
  (∃ b, b.Error ≠ none ∧ X.1 = Exit.fatal ∧ X.2.calls = db.calls ++ [(Call.Begin, b)]
    ∧ X.2.committed = db.committed)
  ∨ (∃ b c r, b.Error = none ∧ c.Error ≠ none ∧ X.1 = Exit.fatal
    ∧ X.2.calls = db.calls ++ [(Call.Begin, b), (Call.Create Handle.outerTx explicitUser, c), (Call.Rollback, r)]
    ∧ X.2.committed = db.committed)
  ∨ (∃ b c s r, b.Error = none ∧ c.Error = none ∧ s.Error ≠ none ∧ X.1 = Exit.fatal
    ∧ X.2.calls = db.calls ++ [(Call.Begin, b), (Call.Create Handle.outerTx explicitUser, c),
        (Call.SavePoint Origin.caller spExplicit, s), (Call.Rollback, r)]
    ∧ X.2.committed = db.committed)
  ∨ (∃ b c s o n, b.Error = none ∧ c.Error = none ∧ s.Error = none
    ∧ NestedRun (db.calls ++ [(Call.Begin, b), (Call.Create Handle.outerTx explicitUser, c),
        (Call.SavePoint Origin.caller spExplicit, s)]) o n
    ∧ ((o = FnOutcome.panicked ∧ X.1 = Exit.panicked ∧ X.2.calls = n ∧ X.2.committed = db.committed)
      ∨ (o = FnOutcome.returned none ∧ CommitTail db.committed n X)
      ∨ (∃ e rb, o = FnOutcome.returned (some e) ∧ rb.Error = none
        ∧ CommitTail db.committed (n ++ [(Call.RollbackTo Origin.caller spExplicit, rb)]) X)
      ∨ (∃ e rb rbErr r, o = FnOutcome.returned (some e) ∧ rb.Error = some rbErr ∧ X.1 = Exit.fatal
        ∧ X.2.calls = n ++ [(Call.RollbackTo Origin.caller spExplicit, rb), (Call.Rollback, r)]
        ∧ X.2.committed = db.committed
        ∧ X.2.log.getLast? = some (LogEntry.Fatalf "Explicit: SavePoint 롤백 실패: %v" rbErr))))

/-- The paths through `implicitSavepointExample`, read off its text. -/
def ImplicitRun (db : DB) (X : Exit × DB) : Prop :=
  (∃ b, b.Error ≠ none ∧ X.1 = Exit.fatal ∧ X.2.calls = db.calls ++ [(Call.Begin, b)]
    ∧ X.2.committed = db.committed)
  ∨ (∃ b c r, b.Error = none ∧ c.Error ≠ none ∧ X.1 = Exit.fatal
    ∧ X.2.calls = db.calls ++ [(Call.Begin, b), (Call.Create Handle.outerTx implicitUser, c), (Call.Rollback, r)]
    ∧ X.2.committed = db.committed)
  ∨ (∃ b c o n, b.Error = none ∧ c.Error = none
    ∧ NestedRun (db.calls ++ [(Call.Begin, b), (Call.Create Handle.outerTx implicitUser, c)]) o n
    ∧ ((o = FnOutcome.panicked ∧ X.1 = Exit.panicked ∧ X.2.calls = n ∧ X.2.committed = db.committed)
      ∨ (∃ err, o = FnOutcome.returned err ∧ CommitTail db.committed n X)))

/-- The table after a user `u` was inserted into `t`. -/
def Table.inserted (t : Table) (u : User) : Table :=
  { rows := t.rows ++ [{ u with ID := t.nextID }], seq := t.nextID }

/-- A table with a row that is not touched and a soft-deleted row that is
named "NonExistentUser". -/
def sampleTable : Table :=
  { rows := [{ ID := 1, Name := "Alice", Email := "alice@example.com", Balance := 30 },
             { ID := 2, Deleted := true, Name := "NonExistentUser", Email := "gone@example.com", Balance := 7 }],
    seq := 2 }

/-- A table with a live and a soft-deleted row named "NonExistentUser". -/
def mixedTable : Table :=
  { rows := [{ ID := 1, Name := "NonExistentUser", Email := "live@example.com", Balance := 7 },
             { ID := 2, Deleted := true, Name := "NonExistentUser", Email := "gone@example.com", Balance := 7 }],
    seq := 2 }

/-- The calls of a run, each with the table the transaction sees after it. -/
def DB.views (db : DB) : List (Call × Table) :=
  db.trace.map (fun e => (e.call, e.view))

/-- The plan in which exactly the `k`-th call of the run (counted from 0)
fails. -/
def failAt (k : Nat) : Nat → Bool := fun n => n == k

end Session02

/-! ## session01: the CRUD walkthrough and the repository test -/

namespace Session01

/-- Modelled from the spec: `models.User` of session01, whose declaration is
absent from the repository: a primary key, the fields Name, Email (unique) and
Age that `main` uses, and the soft-delete mark (used only when the model has a
soft-delete column). -/
structure User where
  ID : Nat := 0
  Deleted : Bool := false
  Name : String
  Email : String
  Age : Int
deriving DecidableEq, Repr

/-- The User table: its rows in primary-key order and the auto-increment
counter the engine keeps for it. -/
structure Table where
  rows : List User
  seq : Nat
deriving DecidableEq, Repr

/-- Largest primary key among the rows. -/
def maxID (rows : List User) : Nat :=
  rows.foldl (fun m u => max m u.ID) 0

/-- Primary key the engine gives to the next inserted row. -/
def Table.nextID (t : Table) : Nat :=
  max t.seq (maxID t.rows) + 1

/-- Errors of the database calls of session01. -/
inductive Err
  | ConnectionError
  | DatabaseError
  | UniqueViolation
  | RecordNotFound
  | MissingWhereClause
  | EmptySlice
deriving DecidableEq, Repr

/-- Lines written by `log` and `fmt` in session01. -/
inductive LogEntry
  | Printf (format : String) (err : Err)
  | Fatalf (format : String) (err : Err)
  | Out (msg : String)
  | OutUsers (format : String) (users : List User)
  | OutName (format : String) (name : String)
  | OutID (format : String) (id : Nat)
deriving DecidableEq, Repr

/-- How `main` ends: it returns, the process exits through `log.Fatalf`, or a
panic leaves it. -/
inductive Exit
  | returned
  | fatal
  | panicked
deriving DecidableEq, Repr

/-- State of a run of session01: the table, whether the model has a
soft-delete column, the number of database calls made, the log, and the
environment's plan of failing calls. -/
structure DB where
  table : Table
  softDelete : Bool
  ncalls : Nat
  log : List LogEntry
  faults : Nat → Bool

/-- A process starting on the persisted table `t`. -/
def DB.start (t : Table) (softDelete : Bool) (faults : Nat → Bool) : DB :=
  { table := t, softDelete := softDelete, ncalls := 0, log := [], faults := faults }

/-- The plan in which no database call of session01 fails. -/
def noFaults : Nat → Bool := fun _ => false

/-- Whether the environment fails the call about to be made. -/
def DB.faulty (db : DB) : Bool :=
  db.faults db.ncalls

/-- Count one database call. -/
def DB.called (db : DB) : DB :=
  { db with ncalls := db.ncalls + 1 }

/-- Append to the log. -/
def DB.logged (db : DB) (l : LogEntry) : DB :=
  { db with log := db.log ++ [l] }

/-- Rows a query on the model sees: those not soft-deleted. -/
def live (r : User) : Bool :=
  !r.Deleted

/-- Modelled from the spec: opening the connection (`infra.InitDB` of
session01 is absent from the repository). -/
def Open (db : DB) : Option Err × DB :=
  if db.faulty then (some Err.ConnectionError, db.called) else (none, db.called)

/-- Modelled from the spec: `Migrator().DropTable(&models.User{})`, absent
from the repository.  Drops the table with its rows and its counter. -/
def DropTable (db : DB) : Option Err × DB :=
  if db.faulty then (some Err.DatabaseError, db.called)
  else (none, { db.called with table := { rows := [], seq := 0 } })

/-- Modelled from the spec: `AutoMigrate(&models.User{})`, absent from the
repository.  Creates or updates the table and keeps the rows. -/
def AutoMigrate (db : DB) : Option Err × DB :=
  if db.faulty then (some Err.DatabaseError, db.called) else (none, db.called)

/-- Number the records of a bulk insert from the primary key `k` on. -/
def numbered : Nat → List User → List User
  | _, [] => []
  | k, u :: us => { u with ID := k } :: numbered (k + 1) us

/-- Modelled from the spec: the library's `Create` on a slice of records,
absent from the repository.  One statement inserts all of them or none;
`Email` is unique over all rows; the records get consecutive primary keys and
are handed back with them. -/
def Create (users : List User) (db : DB) : Option Err × List User × DB :=
  if db.faulty then (some Err.DatabaseError, users, db.called)
  else if users.isEmpty then (some Err.EmptySlice, users, db.called)
  else if users.any (fun u => db.table.rows.any (fun r => r.Email == u.Email))
      || !(users.map (fun u => u.Email)).Nodup then
    (some Err.UniqueViolation, users, db.called)
  else
    (none, numbered db.table.nextID users,
      { db.called with
        table := { rows := db.table.rows ++ numbered db.table.nextID users,
                   seq := db.table.nextID + users.length - 1 } })

/-- Modelled from the spec: `Find(&users)`, absent from the repository.
Returns the rows that are not soft-deleted, in primary-key order. -/
def Find (db : DB) : Option Err × List User × DB :=
  if db.faulty then (some Err.DatabaseError, [], db.called)
  else (none, db.table.rows.filter live, db.called)

/-- Modelled from the spec: `Where("email = ?", email).First(&user)`, absent
from the repository.  The first row by primary key that holds the email and
is not soft-deleted; `RecordNotFound` when there is none. -/
def First (email : String) (db : DB) : Except Err User × DB :=
  if db.faulty then (Except.error Err.DatabaseError, db.called)
  else
    match (db.table.rows.filter (fun r => live r && r.Email == email)).head? with
    | none => (Except.error Err.RecordNotFound, db.called)
    | some u => (Except.ok u, db.called)

/-- Modelled from the spec: `Save(&user)`, absent from the repository.  For a
record with a primary key it writes all columns of the row with that key, and
inserts the record when no row has the key; `Email` stays unique. -/
def Save (u : User) (db : DB) : Option Err × DB :=
  if db.faulty then (some Err.DatabaseError, db.called)
  else if db.table.rows.any (fun r => r.ID != u.ID && r.Email == u.Email) then
    (some Err.UniqueViolation, db.called)
  else if u.ID != 0 && db.table.rows.any (fun r => r.ID == u.ID) then
    (none, { db.called with
      table := { db.table with rows := db.table.rows.map (fun r => if r.ID == u.ID then u else r) } })
  else
    (none, { db.called with
      table := { rows := db.table.rows ++ [{ u with ID := if u.ID = 0 then db.table.nextID else u.ID }],
                 seq := if u.ID = 0 then db.table.nextID else max db.table.seq u.ID } })

/-- Modelled from the spec: `Model(&models.User{}).Where("email = ?",
email).Update("Age", age)`, absent from the repository.  Sets the one column
on every row that holds the email and is not soft-deleted. -/
def UpdateAge (email : String) (age : Int) (db : DB) : Option Err × DB :=
  if db.faulty then (some Err.DatabaseError, db.called)
  else
    (none, { db.called with
      table := { db.table with
        rows := db.table.rows.map (fun r => if live r && r.Email == email then { r with Age := age } else r) } })

/-- Modelled from the spec: `Model(&models.User{}).Where("email = ?",
email).Updates(map[string]interface{}{"Name": name, "Age": age})`, absent
from the repository.  Sets the two columns on every row that holds the email
and is not soft-deleted. -/
def UpdatesNameAge (email : String) (name : String) (age : Int) (db : DB) : Option Err × DB :=
  if db.faulty then (some Err.DatabaseError, db.called)
  else
    (none, { db.called with
      table := { db.table with
        rows := db.table.rows.map
          (fun r => if live r && r.Email == email then { r with Name := name, Age := age } else r) } })

/-- Modelled from the spec: `Delete(&user)` for a loaded record, absent from
the repository.  Deletes by the record's primary key: the row is marked
deleted when the model has a soft-delete column and removed otherwise; a
record without a primary key gives no condition and is refused. -/
def Delete (u : User) (db : DB) : Option Err × DB :=
  if db.faulty then (some Err.DatabaseError, db.called)
  else if u.ID = 0 then (some Err.MissingWhereClause, db.called)
  else if db.softDelete then
    (none, { db.called with
      table := { db.table with
        rows := db.table.rows.map (fun r => if live r && r.ID == u.ID then { r with Deleted := true } else r) } })
  else
    (none, { db.called with
      table := { db.table with rows := db.table.rows.filter (fun r => r.ID != u.ID) } })

/-- Modelled from the spec: `infra.InitDB` of session01, absent from the
repository: the process terminates when the connection cannot be opened. -/
def InitDB (db : DB) : Exit × DB :=
  match Open db with
  | (some err, db1) => (Exit.fatal, db1.logged (LogEntry.Fatalf "데이터베이스 연결 실패: %v" err))
  | (none, db1) => (Exit.returned, db1)

/-- Step 6 of `main` (main.go, lines 96-102). -/
def mainFinal (db : DB) : Exit × DB :=
  match Find db with
  | (some err, _, db1) => (Exit.returned, db1.logged (LogEntry.Printf "[ERROR] 최종 사용자 조회 실패: %v" err))
  | (none, finalUsers, db1) =>
    (Exit.returned, db1.logged (LogEntry.OutUsers "최종 사용자 목록: %v\n" finalUsers))

/-- Step 5 of `main` (main.go, lines 84-94), followed by step 6. -/
def mainDelete (db : DB) : Exit × DB :=
  match First "carrot@example.com" db with
  | (Except.ok carrotUser, db1) =>
    match Delete carrotUser db1 with
    | (some err, db2) => mainFinal (db2.logged (LogEntry.Printf "[ERROR] Carrot 삭제 실패: %v" err))
    | (none, db2) => mainFinal (db2.logged (LogEntry.OutID "Carrot 사용자(ID=%d) 삭제 완료\n" carrotUser.ID))
  | (Except.error err, db1) =>
    mainFinal (db1.logged (LogEntry.Printf "[ERROR] Carrot 조회 실패(이미 삭제됐을 수도 있음): %v" err))

/-- Update examples 2 and 3 of `main` (main.go, lines 61-82), followed by
step 5. -/
def mainUpdates (db : DB) : Exit × DB :=
  match UpdateAge "tomato@example.com" 20 db with
  | (e2, db1) =>
    let db2 := match e2 with
      | some err => db1.logged (LogEntry.Printf "[ERROR] Tomato Age 업데이트 실패: %v" err)
      | none => db1.logged (LogEntry.Out "Tomato Age가 20으로 업데이트되었습니다.")
    match UpdatesNameAge "carrot@example.com" "Fresh Carrot" 15 db2 with
    | (e3, db3) =>
      mainDelete (match e3 with
        | some err => db3.logged (LogEntry.Printf "[ERROR] Carrot 다중 업데이트 실패: %v" err)
        | none => db3.logged (LogEntry.Out "Carrot Name과 Age가 동시 업데이트되었습니다."))

/-- Update example 1 of `main` (main.go, lines 45-55), followed by the other
updates. -/
def mainSave (db : DB) : Exit × DB :=
  match First "potato@example.com" db with
  | (Except.ok potatoUser, db1) =>
    match Save { potatoUser with Name := "Updated Potato" } db1 with
    | (some err, db2) => mainUpdates (db2.logged (LogEntry.Printf "[ERROR] 사용자 Save 실패: %v" err))
    | (none, db2) =>
      mainUpdates (db2.logged (LogEntry.OutName "Save로 Potato의 Name 갱신: [%s]\n" "Updated Potato"))
  | (Except.error err, db1) => mainUpdates (db1.logged (LogEntry.Printf "[ERROR] Potato 조회 실패: %v" err))

/-- The function `main` of session01 (main.go, lines 11-103). -/
def main (db : DB) : Exit × DB :=
  match InitDB db with
  | (Exit.returned, db1) =>
    match DropTable db1 with
    | (dropped, db2) =>
      let db3 := match dropped with
        | some err => db2.logged (LogEntry.Printf "[WARN] 테이블 삭제 실패(존재하지 않을 수 있음): %v" err)
        | none => db2
      match AutoMigrate db3 with
      | (some err, db4) => (Exit.fatal, db4.logged (LogEntry.Fatalf "[FATAL] 테이블 마이그레이션 실패: %v" err))
      | (none, db4) =>
        let newUsers : List User :=
          [{ Name := "Potato", Email := "potato@example.com", Age := 11 },
           { Name := "Tomato", Email := "tomato@example.com", Age := 12 },
           { Name := "Carrot", Email := "carrot@example.com", Age := 13 }]
        match Create newUsers db4 with
        | (some err, _, db5) => (Exit.fatal, db5.logged (LogEntry.Fatalf "[FATAL] 사용자 일괄 생성 실패: %v" err))
        | (none, created, db5) =>
          let db6 := db5.logged (LogEntry.OutUsers "생성된 사용자들: %#v\n" created)
          match Find db6 with
          | (some err, _, db7) =>
            mainSave (db7.logged (LogEntry.Printf "[ERROR] 사용자 전체 조회 실패: %v" err))
          | (none, allUsers, db7) => mainSave (db7.logged (LogEntry.OutUsers "전체 사용자: %v\n" allUsers))
  | (e, db1) => (e, db1)

/-- The function `InitTestDB` (db_test.go, lines 9-15): opens a fresh in-memory
database, which has no rows; a connection that cannot be opened is a panic. -/
def InitTestDB (softDelete : Bool) (faults : Nat → Bool) : Exit × DB :=
  match Open (DB.start { rows := [], seq := 0 } softDelete faults) with
  | (some _, db1) => (Exit.panicked, db1)
  | (none, db1) => (Exit.returned, db1)

/-- The function `TestCreateUser` (user_repository_test.go, lines 9-22):
whether the test passes.  `repositories.CreateUser` is absent from the
repository and is a parameter here. -/
def TestCreateUser (CreateUser : User → DB → Option Err × DB) (softDelete : Bool) (faults : Nat → Bool) :
    Bool :=
  match InitTestDB softDelete faults with
  | (Exit.returned, db) =>
    match CreateUser { Name := "TestUser", Email := "test@example.com", Age := 30 } (AutoMigrate db).2 with
    | (some _, _) => false
    | (none, _) => true
  | _ => false

end Session01

/-! ## Theorems about session02 -/

namespace Session02

theorem fail_step (db : DB) (c : Call) (e : Err) :
    (db.fail c e).2.calls = db.calls ++ [(c, (db.fail c e).1)]
    ∧ (db.fail c e).2.committed = db.committed ∧ (db.fail c e).2.log = db.log
    ∧ (db.fail c e).1.Error ≠ none := by
  simp [DB.fail, DB.record, DB.calls, failed]

theorem done_step (db : DB) (c : Call) (n : Nat) :
    (db.done c n).2.calls = db.calls ++ [(c, (db.done c n).1)]
    ∧ (db.done c n).2.committed = db.committed ∧ (db.done c n).2.log = db.log := by
  simp [DB.done, DB.record, DB.calls]

theorem Begin_step (db : DB) :
    (Begin db).2.calls = db.calls ++ [(Call.Begin, (Begin db).1)]
    ∧ (Begin db).2.committed = db.committed ∧ (Begin db).2.log = db.log := by
  unfold Begin
  split
  · exact ⟨(fail_step db _ _).1, (fail_step db _ _).2.1, (fail_step db _ _).2.2.1⟩
  · split
    · exact ⟨(fail_step db _ _).1, (fail_step db _ _).2.1, (fail_step db _ _).2.2.1⟩
    · simp [DB.done, DB.record, DB.calls]

theorem Create_step (u : User) (db : DB) :
    (Create Handle.outerTx u db).2.calls = db.calls ++ [(Call.Create Handle.outerTx u, (Create Handle.outerTx u db).1)]
    ∧ (Create Handle.outerTx u db).2.committed = db.committed
    ∧ (Create Handle.outerTx u db).2.log = db.log := by
  unfold Create
  split
  · exact ⟨(fail_step db _ _).1, (fail_step db _ _).2.1, (fail_step db _ _).2.2.1⟩
  · split
    · exact ⟨(fail_step db _ _).1, (fail_step db _ _).2.1, (fail_step db _ _).2.2.1⟩
    · split
      · exact ⟨(fail_step db _ _).1, (fail_step db _ _).2.1, (fail_step db _ _).2.2.1⟩
      · split
        · exact ⟨(fail_step db _ _).1, (fail_step db _ _).2.1, (fail_step db _ _).2.2.1⟩
        · simp only [DB.write]
          split <;> simp [DB.done, DB.record, DB.calls]

theorem updateRows_step (n : String) (b : Int) (db : DB) :
    (updateRows Handle.outerTx n b db).2.calls =
      db.calls ++ [(Call.Update Handle.outerTx n b, (updateRows Handle.outerTx n b db).1)]
    ∧ (updateRows Handle.outerTx n b db).2.committed = db.committed
    ∧ (updateRows Handle.outerTx n b db).2.log = db.log := by
  unfold updateRows
  split
  · exact ⟨(fail_step db _ _).1, (fail_step db _ _).2.1, (fail_step db _ _).2.2.1⟩
  · split
    · exact ⟨(fail_step db _ _).1, (fail_step db _ _).2.1, (fail_step db _ _).2.2.1⟩
    · simp only [DB.write]
      split <;> simp [DB.done, DB.record, DB.calls]

theorem SavePoint_step (o : Origin) (name : SpName) (db : DB) :
    (SavePoint o name db).2.calls = db.calls ++ [(Call.SavePoint o name, (SavePoint o name db).1)]
    ∧ (SavePoint o name db).2.committed = db.committed ∧ (SavePoint o name db).2.log = db.log := by
  unfold SavePoint
  split
  · exact ⟨(fail_step db _ _).1, (fail_step db _ _).2.1, (fail_step db _ _).2.2.1⟩
  · split
    · exact ⟨(fail_step db _ _).1, (fail_step db _ _).2.1, (fail_step db _ _).2.2.1⟩
    · split
      · exact ⟨(fail_step db _ _).1, (fail_step db _ _).2.1, (fail_step db _ _).2.2.1⟩
      · split
        · exact ⟨(fail_step db _ _).1, (fail_step db _ _).2.1, (fail_step db _ _).2.2.1⟩
        · simp [DB.done, DB.record, DB.calls]

theorem RollbackTo_step (o : Origin) (name : SpName) (db : DB) :
    (RollbackTo o name db).2.calls = db.calls ++ [(Call.RollbackTo o name, (RollbackTo o name db).1)]
    ∧ (RollbackTo o name db).2.committed = db.committed ∧ (RollbackTo o name db).2.log = db.log := by
  unfold RollbackTo
  split
  · exact ⟨(fail_step db _ _).1, (fail_step db _ _).2.1, (fail_step db _ _).2.2.1⟩
  · split
    · exact ⟨(fail_step db _ _).1, (fail_step db _ _).2.1, (fail_step db _ _).2.2.1⟩
    · split
      · exact ⟨(fail_step db _ _).1, (fail_step db _ _).2.1, (fail_step db _ _).2.2.1⟩
      · split
        · exact ⟨(fail_step db _ _).1, (fail_step db _ _).2.1, (fail_step db _ _).2.2.1⟩
        · simp [DB.done, DB.record, DB.calls]

theorem Rollback_step (db : DB) :
    (Rollback db).2.calls = db.calls ++ [(Call.Rollback, (Rollback db).1)]
    ∧ (Rollback db).2.committed = db.committed ∧ (Rollback db).2.log = db.log := by
  unfold Rollback
  split
  · exact ⟨(fail_step db _ _).1, (fail_step db _ _).2.1, (fail_step db _ _).2.2.1⟩
  · split
    · exact ⟨(fail_step db _ _).1, (fail_step db _ _).2.1, (fail_step db _ _).2.2.1⟩
    · split
      · exact ⟨(fail_step db _ _).1, (fail_step db _ _).2.1, (fail_step db _ _).2.2.1⟩
      · simp [DB.done, DB.record, DB.calls]

theorem Commit_step (db : DB) :
    (Commit db).2.calls = db.calls ++ [(Call.Commit, (Commit db).1)]
    ∧ ((Commit db).1.Error ≠ none → (Commit db).2.committed = db.committed)
    ∧ (Commit db).2.log = db.log := by
  unfold Commit
  split
  · exact ⟨(fail_step db _ _).1, fun _ => (fail_step db _ _).2.1, (fail_step db _ _).2.2.1⟩
  · split
    · exact ⟨(fail_step db _ _).1, fun _ => (fail_step db _ _).2.1, (fail_step db _ _).2.2.1⟩
    · split
      · exact ⟨(fail_step db _ _).1, fun _ => (fail_step db _ _).2.1, (fail_step db _ _).2.2.1⟩
      · simp [DB.done, DB.record, DB.calls, ok]

theorem logged_step (db : DB) (l : LogEntry) :
    (db.logged l).calls = db.calls ∧ (db.logged l).committed = db.committed
    ∧ (db.logged l).log = db.log ++ [l] := by
  simp [DB.logged, DB.calls]

theorem explicitNested_eq : explicitNested = nestedUpdate "Explicit: 업데이트된 레코드가 없으므로 롤백" := rfl

theorem implicitNested_eq : implicitNested = nestedUpdate "Implicit: 업데이트된 레코드가 없으므로 롤백" := rfl

theorem Transaction_nested (msg : String) (db : DB) :
    NestedRun db.calls (Transaction (nestedUpdate msg) db).1 (Transaction (nestedUpdate msg) db).2.calls
    ∧ (Transaction (nestedUpdate msg) db).2.committed = db.committed
    ∧ (Transaction (nestedUpdate msg) db).2.log = db.log := by
  unfold Transaction
  simp only []
  set S := SavePoint Origin.helper (SpName.internal db.trace.length) db with hSdef
  have hS : S.2.calls = db.calls ++ [(Call.SavePoint Origin.helper (SpName.internal db.trace.length), S.1)]
      ∧ S.2.committed = db.committed ∧ S.2.log = db.log := SavePoint_step _ _ db
  cases hE : S.1.Error with
  | some e =>
    refine ⟨⟨SpName.internal db.trace.length, Or.inl ⟨S.1, ?_, ?_, hS.1⟩⟩, hS.2.1, hS.2.2⟩
    · simp [hE]
    · simp [hE]
  | none =>
    simp only []
    unfold nestedUpdate Update
    by_cases hp : S.2.panics = true
    · simp only [hp, if_true]
      have hR := RollbackTo_step Origin.helper (SpName.internal db.trace.length) S.2
      refine ⟨⟨SpName.internal db.trace.length, Or.inr (Or.inl
        ⟨S.1, (RollbackTo Origin.helper (SpName.internal db.trace.length) S.2).1, hE, rfl, ?_⟩)⟩, ?_, ?_⟩
      · rw [hR.1, hS.1]; simp
      · rw [hR.2.1, hS.2.1]
      · rw [hR.2.2, hS.2.2]
    · have hpf : S.2.panics = false := by simpa using hp
      set U := updateRows Handle.outerTx "NonExistentUser" 500 S.2 with hUdef
      have hU : U.2.calls = S.2.calls ++ [(Call.Update Handle.outerTx "NonExistentUser" 500, U.1)]
          ∧ U.2.committed = S.2.committed ∧ U.2.log = S.2.log := updateRows_step _ _ S.2
      have hR := RollbackTo_step Origin.helper (SpName.internal db.trace.length) U.2
      cases hUE : U.1.Error with
      | some e =>
        simp only [hpf, Bool.false_eq_true, if_false, hUE]
        refine ⟨⟨SpName.internal db.trace.length, Or.inr (Or.inr (Or.inl
          ⟨S.1, U.1, (RollbackTo Origin.helper (SpName.internal db.trace.length) U.2).1, e, hE,
            Or.inl ?_, rfl, ?_⟩))⟩, ?_, ?_⟩
        · simp [hUE]
        · rw [hR.1, hU.1, hS.1]; simp
        · rw [hR.2.1, hU.2.1, hS.2.1]
        · rw [hR.2.2, hU.2.2, hS.2.2]
      | none =>
        by_cases h0 : U.1.RowsAffected = 0
        · simp only [hpf, Bool.false_eq_true, if_false, hUE, h0, beq_self_eq_true, if_true]
          refine ⟨⟨SpName.internal db.trace.length, Or.inr (Or.inr (Or.inl
            ⟨S.1, U.1, (RollbackTo Origin.helper (SpName.internal db.trace.length) U.2).1, _, hE,
              Or.inr h0, rfl, ?_⟩))⟩, ?_, ?_⟩
          · rw [hR.1, hU.1, hS.1]; simp
          · rw [hR.2.1, hU.2.1, hS.2.1]
          · rw [hR.2.2, hU.2.2, hS.2.2]
        · have hb : (U.1.RowsAffected == 0) = false := by simpa using h0
          simp only [hpf, Bool.false_eq_true, if_false, hUE, hb]
          refine ⟨⟨SpName.internal db.trace.length, Or.inr (Or.inr (Or.inr
            ⟨S.1, U.1, hE, hUE, h0, rfl, ?_⟩))⟩, ?_, ?_⟩
          · rw [hU.1, hS.1]; simp
          · rw [hU.2.1, hS.2.1]
          · rw [hU.2.2, hS.2.2]

theorem explicitCommit_tail (db : DB) : CommitTail db.committed db.calls (explicitCommit db) := by
  unfold explicitCommit
  simp only []
  have hC := Commit_step db
  refine ⟨(Commit db).1, ?_, ?_, ?_⟩
  · cases hE : (Commit db).1.Error <;> simp [hE, (logged_step _ _).1, hC.1]
  · intro hE
    simp [hE]
  · intro hE
    cases hE1 : (Commit db).1.Error with
    | none => exact absurd hE1 hE
    | some e => simp [hE1, (logged_step _ _).2.1, hC.2.1 hE]

theorem implicitCommit_tail (db : DB) : CommitTail db.committed db.calls (implicitCommit db) := by
  unfold implicitCommit
  simp only []
  have hC := Commit_step db
  refine ⟨(Commit db).1, ?_, ?_, ?_⟩
  · cases hE : (Commit db).1.Error <;> simp [hE, (logged_step _ _).1, hC.1]
  · intro hE
    simp [hE]
  · intro hE
    cases hE1 : (Commit db).1.Error with
    | none => exact absurd hE1 hE
    | some e => simp [hE1, (logged_step _ _).2.1, hC.2.1 hE]

theorem explicit_paths (db : DB) : ExplicitRun db (explicitSavepointExample db) := by
  unfold explicitSavepointExample
  simp only [explicitNested_eq]
  set db0 := db.logged (LogEntry.Println "==== Explicit SavePoint Example ====") with hdb0
  have h0 : db0.calls = db.calls ∧ db0.committed = db.committed ∧ db0.log = _ := logged_step db _
  have hB := Begin_step db0
  rcases hBeq : Begin db0 with ⟨b, db1⟩
  rw [hBeq] at hB
  simp only [] at hB ⊢
  cases hbE : b.Error with
  | some e =>
    refine Or.inl ⟨b, by simp [hbE], ?_, ?_, ?_⟩ <;>
      simp [(logged_step _ _).1, (logged_step _ _).2.1, hB.1, hB.2.1, h0.1, h0.2.1]
  | none =>
    simp only []
    have hC := Create_step { Name := "ExplicitUser", Email := "explicit@example.com", Balance := 100 } db1
    rcases hCeq : Create Handle.outerTx
      { Name := "ExplicitUser", Email := "explicit@example.com", Balance := 100 } db1 with ⟨c, db2⟩
    rw [hCeq] at hC
    simp only [] at hC ⊢
    cases hcE : c.Error with
    | some e =>
      have hR := Rollback_step db2
      refine Or.inr (Or.inl ⟨b, c, (Rollback db2).1, hbE, by simp [hcE], ?_, ?_, ?_⟩) <;>
        simp [(logged_step _ _).1, (logged_step _ _).2.1, hR.1, hR.2.1, hC.1, hC.2.1, hB.1, hB.2.1,
          h0.1, h0.2.1, explicitUser]
    | none =>
      simp only []
      have hS := SavePoint_step Origin.caller (SpName.named "sp_explicit") db2
      rcases hSeq : SavePoint Origin.caller (SpName.named "sp_explicit") db2 with ⟨sp, db3⟩
      rw [hSeq] at hS
      simp only [] at hS ⊢
      have hpre : db3.calls = db.calls ++ [(Call.Begin, b), (Call.Create Handle.outerTx explicitUser, c),
          (Call.SavePoint Origin.caller spExplicit, sp)] := by
        simp [hS.1, hC.1, hB.1, h0.1, explicitUser, spExplicit]
      have hcom : db3.committed = db.committed := by rw [hS.2.1, hC.2.1, hB.2.1, h0.2.1]
      cases hsE : sp.Error with
      | some e =>
        have hR := Rollback_step db3
        refine Or.inr (Or.inr (Or.inl ⟨b, c, sp, (Rollback db3).1, hbE, hcE, by simp [hsE], ?_, ?_, ?_⟩)) <;>
          simp [(logged_step _ _).1, (logged_step _ _).2.1, hR.1, hR.2.1, hpre, hcom]
      | none =>
        simp only []
        have hT := Transaction_nested "Explicit: 업데이트된 레코드가 없으므로 롤백" db3
        rcases hTeq : Transaction (nestedUpdate "Explicit: 업데이트된 레코드가 없으므로 롤백") db3 with ⟨o, db4⟩
        rw [hTeq] at hT
        simp only [] at hT ⊢
        rw [hpre] at hT
        refine Or.inr (Or.inr (Or.inr ⟨b, c, sp, o, db4.calls, hbE, hcE, hsE, hT.1, ?_⟩))
        cases o with
        | panicked => exact Or.inl ⟨rfl, rfl, rfl, by rw [hT.2.1, hcom]⟩
        | returned err =>
          cases err with
          | none =>
            refine Or.inr (Or.inl ⟨rfl, ?_⟩)
            have := explicitCommit_tail db4
            rwa [hT.2.1, hcom] at this
          | some e =>
            simp only []
            set db5 := db4.logged (LogEntry.Printf "Explicit: 내부 트랜잭션 에러 발생: %v" e) with hdb5
            have h5 : db5.calls = db4.calls ∧ db5.committed = db4.committed ∧ db5.log = _ :=
              logged_step db4 _
            have hRB := RollbackTo_step Origin.caller (SpName.named "sp_explicit") db5
            rcases hRBeq : RollbackTo Origin.caller (SpName.named "sp_explicit") db5 with ⟨rb, db6⟩
            rw [hRBeq] at hRB
            simp only [] at hRB ⊢
            cases hrE : rb.Error with
            | none =>
              refine Or.inr (Or.inr (Or.inl ⟨e, rb, rfl, hrE, ?_⟩))
              have := explicitCommit_tail db6
              rwa [hRB.1, hRB.2.1, h5.1, h5.2.1, hT.2.1, hcom] at this
            | some rbErr =>
              have hR := Rollback_step db6
              refine Or.inr (Or.inr (Or.inr ⟨e, rb, rbErr, (Rollback db6).1, rfl, hrE, ?_, ?_, ?_, ?_⟩)) <;>
                simp [(logged_step _ _).1, (logged_step _ _).2.1, (logged_step _ _).2.2, hR.1, hR.2.1,
                  hRB.1, hRB.2.1, h5.1, h5.2.1, hT.2.1, hcom, spExplicit]

theorem implicit_paths (db : DB) : ImplicitRun db (implicitSavepointExample db) := by
  unfold implicitSavepointExample
  simp only [implicitNested_eq]
  set db0 := db.logged (LogEntry.Println "==== Implicit SavePoint Example ====") with hdb0
  have h0 : db0.calls = db.calls ∧ db0.committed = db.committed ∧ db0.log = _ := logged_step db _
  have hB := Begin_step db0
  rcases hBeq : Begin db0 with ⟨b, db1⟩
  rw [hBeq] at hB
  simp only [] at hB ⊢
  cases hbE : b.Error with
  | some e =>
    refine Or.inl ⟨b, by simp [hbE], ?_, ?_, ?_⟩ <;>
      simp [(logged_step _ _).1, (logged_step _ _).2.1, hB.1, hB.2.1, h0.1, h0.2.1]
  | none =>
    simp only []
    have hC := Create_step { Name := "ImplicitUser", Email := "implicit@example.com", Balance := 100 } db1
    rcases hCeq : Create Handle.outerTx
      { Name := "ImplicitUser", Email := "implicit@example.com", Balance := 100 } db1 with ⟨c, db2⟩
    rw [hCeq] at hC
    simp only [] at hC ⊢
    have hpre : db2.calls = db.calls ++ [(Call.Begin, b), (Call.Create Handle.outerTx implicitUser, c)] := by
      simp [hC.1, hB.1, h0.1, implicitUser]
    have hcom : db2.committed = db.committed := by rw [hC.2.1, hB.2.1, h0.2.1]
    cases hcE : c.Error with
    | some e =>
      have hR := Rollback_step db2
      refine Or.inr (Or.inl ⟨b, c, (Rollback db2).1, hbE, by simp [hcE], ?_, ?_, ?_⟩) <;>
        simp [(logged_step _ _).1, (logged_step _ _).2.1, hR.1, hR.2.1, hpre, hcom]
    | none =>
      simp only []
      have hT := Transaction_nested "Implicit: 업데이트된 레코드가 없으므로 롤백" db2
      rcases hTeq : Transaction (nestedUpdate "Implicit: 업데이트된 레코드가 없으므로 롤백") db2 with ⟨o, db3⟩
      rw [hTeq] at hT
      simp only [] at hT ⊢
      rw [hpre] at hT
      refine Or.inr (Or.inr ⟨b, c, o, db3.calls, hbE, hcE, hT.1, ?_⟩)
      cases o with
      | panicked => exact Or.inl ⟨rfl, rfl, rfl, by rw [hT.2.1, hcom]⟩
      | returned err =>
        cases err with
        | none =>
          refine Or.inr ⟨none, rfl, ?_⟩
          have := implicitCommit_tail db3
          rwa [hT.2.1, hcom] at this
        | some e =>
          refine Or.inr ⟨some e, rfl, ?_⟩
          have := implicitCommit_tail
            ((db3.logged (LogEntry.Printf "Implicit: 내부 트랜잭션 에러 발생: %v" e)).logged
              (LogEntry.Println "Implicit: 에러를 무시하고 외부 트랜잭션을 계속 진행합니다."))
          simpa [(logged_step _ _).1, (logged_step _ _).2.1, hT.2.1, hcom] using this

theorem any_email_false (rows : List User) (e : String) (h : ∀ u ∈ rows, u.Email ≠ e) :
    rows.any (fun r => r.Email == e) = false := by
  induction rows with
  | nil => rfl
  | cons a l ih =>
    have ha : a.Email ≠ e := h a (List.mem_cons_self a l)
    have hl : ∀ u ∈ l, u.Email ≠ e := fun u hu => h u (List.mem_cons_of_mem a hu)
    simp [List.any_cons, ha, ih hl]

theorem selected_false (rows : List User) (n : String)
    (h : ∀ u ∈ rows, u.Deleted = false → u.Name ≠ n) : ∀ u ∈ rows, selected n u = false := by
  intro u hu
  cases hd : u.Deleted with
  | true => simp [selected, hd]
  | false => simp [selected, hd, h u hu hd]

theorem filter_selected_nil (rows : List User) (n : String)
    (h : ∀ u ∈ rows, u.Deleted = false → u.Name ≠ n) : rows.filter (selected n) = [] := by
  rw [List.filter_eq_nil_iff]
  intro u hu
  simp [selected_false rows n h u hu]

theorem map_update_none (rows : List User) (n : String) (b : Int)
    (h : ∀ u ∈ rows, u.Deleted = false → u.Name ≠ n) :
    rows.map (fun r => if selected n r then { r with Balance := b } else r) = rows := by
  have hs := selected_false rows n h
  calc rows.map (fun r => if selected n r then { r with Balance := b } else r)
      = rows.map id := List.map_congr_left (fun u hu => by simp [hs u hu])
    _ = rows := List.map_id rows

/-- C1: `explicitSavepointExample` on a database with no non-deleted user named
"NonExistentUser" and no row holding "explicit@example.com", no call failing
(so a primary key is left for the new row):
the nested transaction returns an error (it is logged), the caller rolls back
to "sp_explicit", the outer `Commit` is invoked and succeeds, and the committed
table is the initial table plus the one new row, the rows that were there
being unchanged. -/
theorem explicit_failure_commits_outer_only (t : Table)
    (hname : ∀ u ∈ t.rows, u.Deleted = false → u.Name ≠ "NonExistentUser")
    (hemail : ∀ u ∈ t.rows, u.Email ≠ "explicit@example.com")
    (hkey : t.counter < maxKey) :
    (explicitSavepointExample (DB.start t noFaults false)).1 = Exit.returned
    ∧ (explicitSavepointExample (DB.start t noFaults false)).2.calls =
        [(Call.Begin, ok 0), (Call.Create Handle.outerTx explicitUser, ok 1),
          (Call.SavePoint Origin.caller spExplicit, ok 0),
          (Call.SavePoint Origin.helper (SpName.internal 3), ok 0),
          (Call.Update Handle.outerTx "NonExistentUser" 500, ok 0),
          (Call.RollbackTo Origin.helper (SpName.internal 3), ok 0),
          (Call.RollbackTo Origin.caller spExplicit, ok 0), (Call.Commit, ok 0)]
    ∧ (explicitSavepointExample (DB.start t noFaults false)).2.log =
        [LogEntry.Println "==== Explicit SavePoint Example ====",
          LogEntry.Printf "Explicit: 내부 트랜잭션 에러 발생: %v"
            (Err.Errorf "Explicit: 업데이트된 레코드가 없으므로 롤백"),
          LogEntry.Println "Explicit: 외부 트랜잭션 커밋 완료 (사용자 생성은 유지되고, 업데이트는 롤백됨)"]
    ∧ (explicitSavepointExample (DB.start t noFaults false)).2.committed.rows =
        t.rows ++ [{ ID := t.nextID, Deleted := false, Name := "ExplicitUser",
                     Email := "explicit@example.com", Balance := 100 }] := by
  have h1 := any_email_false t.rows _ hemail
  have h2 := filter_selected_nil t.rows _ hname
  have h3 := map_update_none t.rows "NonExistentUser" 500 hname
  have hk : ¬ maxKey ≤ t.counter := Nat.not_le.mpr hkey
  simp [explicitSavepointExample, explicitNested, explicitCommit, Transaction, Begin, Create, Update,
    updateRows, SavePoint, RollbackTo, Commit, DB.start, noFaults, DB.faulty, DB.fail, DB.done, DB.record,
    DB.logged, DB.work, DB.view, DB.read, DB.write, DB.calls, h1, h2, h3, hk, selected, ok, explicitUser,
    spExplicit]

/-- C1 at `sampleTable`, which holds an untouched row and a soft-deleted row named
"NonExistentUser". -/
theorem explicit_failure_commits_outer_only_witness :
    (explicitSavepointExample (DB.start sampleTable noFaults false)).2.committed.rows =
      sampleTable.rows ++ [{ ID := sampleTable.nextID, Deleted := false, Name := "ExplicitUser",
                             Email := "explicit@example.com", Balance := 100 }] :=
  (explicit_failure_commits_outer_only sampleTable (by decide) (by decide) (by decide)).2.2.2

/-- C3, as stated, fails: the table holds a non-deleted user named
"NonExistentUser" and no email conflict, the run commits, and the soft-deleted
row named "NonExistentUser" still has balance 7 in the committed table. -/
theorem explicit_success_skips_soft_deleted :
    (∃ u ∈ mixedTable.rows, u.Deleted = false ∧ u.Name = "NonExistentUser")
    ∧ (∀ u ∈ mixedTable.rows, u.Email ≠ "explicit@example.com")
    ∧ (explicitSavepointExample (DB.start mixedTable noFaults false)).1 = Exit.returned
    ∧ ¬ (∀ u ∈ (explicitSavepointExample (DB.start mixedTable noFaults false)).2.committed.rows,
          u.Name = "NonExistentUser" → u.Balance = 500) := by
  decide

/-- C3, amended: `explicitSavepointExample` on a database holding at least one
non-deleted user named "NonExistentUser", no email conflict, no call failing
(so a primary key is left for the new row):
the nested transaction returns nil (no error is logged), `RollbackTo` is never
invoked, and the committed table holds the new "ExplicitUser" row with balance
100 and the inner change: every non-deleted user named "NonExistentUser" has
balance 500, every other row being as it was. -/
theorem explicit_success_commits_both (t : Table)
    (hex : ∃ u ∈ t.rows, u.Deleted = false ∧ u.Name = "NonExistentUser")
    (hemail : ∀ u ∈ t.rows, u.Email ≠ "explicit@example.com")
    (hkey : t.counter < maxKey) :
    (explicitSavepointExample (DB.start t noFaults false)).1 = Exit.returned
    ∧ (explicitSavepointExample (DB.start t noFaults false)).2.calls =
        [(Call.Begin, ok 0), (Call.Create Handle.outerTx explicitUser, ok 1),
          (Call.SavePoint Origin.caller spExplicit, ok 0),
          (Call.SavePoint Origin.helper (SpName.internal 3), ok 0),
          (Call.Update Handle.outerTx "NonExistentUser" 500,
            ok (t.rows.filter (selected "NonExistentUser")).length),
          (Call.Commit, ok 0)]
    ∧ (∀ o name, (explicitSavepointExample (DB.start t noFaults false)).2.invoked (Call.RollbackTo o name)
        = false)
    ∧ (explicitSavepointExample (DB.start t noFaults false)).2.log =
        [LogEntry.Println "==== Explicit SavePoint Example ====",
          LogEntry.Println "Explicit: 외부 트랜잭션 커밋 완료 (사용자 생성은 유지되고, 업데이트는 롤백됨)"]
    ∧ (explicitSavepointExample (DB.start t noFaults false)).2.committed.rows =
        t.rows.map (fun r => if selected "NonExistentUser" r then { r with Balance := 500 } else r)
          ++ [{ ID := t.nextID, Deleted := false, Name := "ExplicitUser",
                Email := "explicit@example.com", Balance := 100 }]
    ∧ (∀ u ∈ (explicitSavepointExample (DB.start t noFaults false)).2.committed.rows,
        u.Deleted = false → u.Name = "NonExistentUser" → u.Balance = 500) := by
  have h1 := any_email_false t.rows _ hemail
  have hk : ¬ maxKey ≤ t.counter := Nat.not_le.mpr hkey
  have hn : ¬ (t.rows.filter (selected "NonExistentUser")).length = 0 := by
    obtain ⟨u, hu, hd, hnm⟩ := hex
    have : u ∈ t.rows.filter (selected "NonExistentUser") := by
      simp [List.mem_filter, hu, selected, hd, hnm]
    intro h0
    rw [List.length_eq_zero] at h0
    rw [h0] at this
    exact absurd this (List.not_mem_nil u)
  have hrun : (explicitSavepointExample (DB.start t noFaults false)).2.committed.rows =
        t.rows.map (fun r => if selected "NonExistentUser" r then { r with Balance := 500 } else r)
          ++ [{ ID := t.nextID, Deleted := false, Name := "ExplicitUser",
                Email := "explicit@example.com", Balance := 100 }] := by
    simp [explicitSavepointExample, explicitNested, explicitCommit, Transaction, Begin, Create, Update,
      updateRows, SavePoint, RollbackTo, Commit, DB.start, noFaults, DB.faulty, DB.fail, DB.done, DB.record,
      DB.logged, DB.work, DB.view, DB.read, DB.write, DB.calls, h1, hn, hk, selected, ok, explicitUser,
      spExplicit]
  refine ⟨?_, ?_, ?_, ?_, hrun, ?_⟩
  · simp [explicitSavepointExample, explicitNested, explicitCommit, Transaction, Begin, Create, Update,
      updateRows, SavePoint, RollbackTo, Commit, DB.start, noFaults, DB.faulty, DB.fail, DB.done, DB.record,
      DB.logged, DB.work, DB.view, DB.read, DB.write, DB.calls, h1, hn, hk, selected, ok, explicitUser,
      spExplicit]
  · simp [explicitSavepointExample, explicitNested, explicitCommit, Transaction, Begin, Create, Update,
      updateRows, SavePoint, RollbackTo, Commit, DB.start, noFaults, DB.faulty, DB.fail, DB.done, DB.record,
      DB.logged, DB.work, DB.view, DB.read, DB.write, DB.calls, h1, hn, hk, selected, ok, explicitUser,
      spExplicit]
  · intro o name
    simp [explicitSavepointExample, explicitNested, explicitCommit, Transaction, Begin, Create, Update,
      updateRows, SavePoint, RollbackTo, Commit, DB.start, noFaults, DB.faulty, DB.fail, DB.done, DB.record,
      DB.logged, DB.work, DB.view, DB.read, DB.write, DB.calls, DB.invoked, h1, hn, hk, selected, ok,
      explicitUser, spExplicit]
  · simp [explicitSavepointExample, explicitNested, explicitCommit, Transaction, Begin, Create, Update,
      updateRows, SavePoint, RollbackTo, Commit, DB.start, noFaults, DB.faulty, DB.fail, DB.done, DB.record,
      DB.logged, DB.work, DB.view, DB.read, DB.write, DB.calls, h1, hn, hk, selected, ok, explicitUser,
      spExplicit]
  · rw [hrun]
    intro u hu hd hnm
    rw [List.mem_append] at hu
    rcases hu with hu | hu
    · rw [List.mem_map] at hu
      obtain ⟨r, _, hr⟩ := hu
      by_cases hs : selected "NonExistentUser" r = true
      · rw [if_pos hs] at hr
        rw [← hr]
      · rw [if_neg hs] at hr
        subst hr
        exact absurd (by simp [selected, hd, hnm]) hs
    · simp at hu
      subst hu
      simp at hnm

/-- The amended C3 at `mixedTable`: the live row is updated, the soft-deleted
one is not, and the created row is there. -/
theorem explicit_success_commits_both_witness :
    (explicitSavepointExample (DB.start mixedTable noFaults false)).1 = Exit.returned
    ∧ (explicitSavepointExample (DB.start mixedTable noFaults false)).2.committed.rows =
        mixedTable.rows.map (fun r => if selected "NonExistentUser" r then { r with Balance := 500 } else r)
          ++ [{ ID := mixedTable.nextID, Deleted := false, Name := "ExplicitUser",
                Email := "explicit@example.com", Balance := 100 }] :=
  ⟨(explicit_success_commits_both mixedTable (by decide) (by decide) (by decide)).1,
    (explicit_success_commits_both mixedTable (by decide) (by decide) (by decide)).2.2.2.2.1⟩

/-- C5: `implicitSavepointExample` on a database with no non-deleted user named
"NonExistentUser" and no row holding "implicit@example.com", no call failing
(so a primary key is left for the new row):
the only savepoint calls are the helper's (the caller creates no savepoint and
calls no `RollbackTo`), the inner error reaches the caller and is logged,
`Commit` is invoked all the same and succeeds, and the committed table is the
initial table plus the one new row. -/
theorem implicit_failure_commits_outer_only (t : Table)
    (hname : ∀ u ∈ t.rows, u.Deleted = false → u.Name ≠ "NonExistentUser")
    (hemail : ∀ u ∈ t.rows, u.Email ≠ "implicit@example.com")
    (hkey : t.counter < maxKey) :
    (implicitSavepointExample (DB.start t noFaults false)).1 = Exit.returned
    ∧ (implicitSavepointExample (DB.start t noFaults false)).2.calls =
        [(Call.Begin, ok 0), (Call.Create Handle.outerTx implicitUser, ok 1),
          (Call.SavePoint Origin.helper (SpName.internal 2), ok 0),
          (Call.Update Handle.outerTx "NonExistentUser" 500, ok 0),
          (Call.RollbackTo Origin.helper (SpName.internal 2), ok 0), (Call.Commit, ok 0)]
    ∧ (∀ name, (implicitSavepointExample (DB.start t noFaults false)).2.invoked
          (Call.SavePoint Origin.caller name) = false
        ∧ (implicitSavepointExample (DB.start t noFaults false)).2.invoked
          (Call.RollbackTo Origin.caller name) = false)
    ∧ (implicitSavepointExample (DB.start t noFaults false)).2.log =
        [LogEntry.Println "==== Implicit SavePoint Example ====",
          LogEntry.Printf "Implicit: 내부 트랜잭션 에러 발생: %v"
            (Err.Errorf "Implicit: 업데이트된 레코드가 없으므로 롤백"),
          LogEntry.Println "Implicit: 에러를 무시하고 외부 트랜잭션을 계속 진행합니다.",
          LogEntry.Println "Implicit: 외부 트랜잭션 커밋 완료 (사용자 생성은 유지되고, 업데이트는 롤백됨)"]
    ∧ (implicitSavepointExample (DB.start t noFaults false)).2.committed.rows =
        t.rows ++ [{ ID := t.nextID, Deleted := false, Name := "ImplicitUser",
                     Email := "implicit@example.com", Balance := 100 }] := by
  have h1 := any_email_false t.rows _ hemail
  have h2 := filter_selected_nil t.rows _ hname
  have h3 := map_update_none t.rows "NonExistentUser" 500 hname
  have hk : ¬ maxKey ≤ t.counter := Nat.not_le.mpr hkey
  simp [implicitSavepointExample, implicitNested, implicitCommit, Transaction, Begin, Create, Update,
    updateRows, SavePoint, RollbackTo, Commit, DB.start, noFaults, DB.faulty, DB.fail, DB.done, DB.record,
    DB.logged, DB.work, DB.view, DB.read, DB.write, DB.calls, DB.invoked, h1, h2, h3, hk, selected, ok,
    implicitUser]

/-- C5 at `sampleTable`. -/
theorem implicit_failure_commits_outer_only_witness :
    (implicitSavepointExample (DB.start sampleTable noFaults false)).2.committed.rows =
      sampleTable.rows ++ [{ ID := sampleTable.nextID, Deleted := false, Name := "ImplicitUser",
                             Email := "implicit@example.com", Balance := 100 }] :=
  (implicit_failure_commits_outer_only sampleTable (by decide) (by decide) (by decide)).2.2.2.2

/-- C7: on the failure path of `explicitSavepointExample` (no call failing, so a
primary key is left for the new row) the helper rolls back
to its own savepoint and then the caller rolls back to "sp_explicit"; the
table the transaction sees after the second rollback is the one captured at
"sp_explicit" and the one seen after the first rollback alone, and the explicit
example commits what the implicit example commits, up to the name and email of
the created user. -/
theorem explicit_second_rollback_changes_nothing (t : Table)
    (hname : ∀ u ∈ t.rows, u.Deleted = false → u.Name ≠ "NonExistentUser")
    (hexplicit : ∀ u ∈ t.rows, u.Email ≠ "explicit@example.com")
    (himplicit : ∀ u ∈ t.rows, u.Email ≠ "implicit@example.com")
    (hkey : t.counter < maxKey) :
    (explicitSavepointExample (DB.start t noFaults false)).2.views =
        [(Call.Begin, t), (Call.Create Handle.outerTx explicitUser, t.inserted explicitUser),
          (Call.SavePoint Origin.caller spExplicit, t.inserted explicitUser),
          (Call.SavePoint Origin.helper (SpName.internal 3), t.inserted explicitUser),
          (Call.Update Handle.outerTx "NonExistentUser" 500, t.inserted explicitUser),
          (Call.RollbackTo Origin.helper (SpName.internal 3), t.inserted explicitUser),
          (Call.RollbackTo Origin.caller spExplicit, t.inserted explicitUser),
          (Call.Commit, t.inserted explicitUser)]
    ∧ (explicitSavepointExample (DB.start t noFaults false)).2.committed = t.inserted explicitUser
    ∧ (implicitSavepointExample (DB.start t noFaults false)).2.committed = t.inserted implicitUser := by
  have h1 := any_email_false t.rows _ hexplicit
  have h1i := any_email_false t.rows _ himplicit
  have hk : ¬ maxKey ≤ t.counter := Nat.not_le.mpr hkey
  have h2 := filter_selected_nil t.rows _ hname
  have h3 := map_update_none t.rows "NonExistentUser" 500 hname
  refine ⟨?_, ?_, ?_⟩
  · simp [explicitSavepointExample, explicitNested, explicitCommit, Transaction, Begin, Create, Update,
      updateRows, SavePoint, RollbackTo, Commit, DB.start, noFaults, DB.faulty, DB.fail, DB.done, DB.record,
      DB.logged, DB.work, DB.view, DB.read, DB.write, DB.views, h1, h2, h3, hk, selected, ok, explicitUser,
      spExplicit, Table.inserted]
    simpa [selected] using h3
  · simp [explicitSavepointExample, explicitNested, explicitCommit, Transaction, Begin, Create, Update,
      updateRows, SavePoint, RollbackTo, Commit, DB.start, noFaults, DB.faulty, DB.fail, DB.done, DB.record,
      DB.logged, DB.work, DB.view, DB.read, DB.write, DB.views, h1, h2, h3, hk, selected, ok, explicitUser,
      spExplicit, Table.inserted]
  · simp [implicitSavepointExample, implicitNested, implicitCommit, Transaction, Begin, Create, Update,
      updateRows, SavePoint, RollbackTo, Commit, DB.start, noFaults, DB.faulty, DB.fail, DB.done, DB.record,
      DB.logged, DB.work, DB.view, DB.read, DB.write, DB.views, h1i, h2, h3, hk, selected, ok, implicitUser,
      Table.inserted]

/-- C7 at `sampleTable`. -/
theorem explicit_second_rollback_changes_nothing_witness :
    (explicitSavepointExample (DB.start sampleTable noFaults false)).2.committed =
        sampleTable.inserted explicitUser
    ∧ (implicitSavepointExample (DB.start sampleTable noFaults false)).2.committed =
        sampleTable.inserted implicitUser :=
  (explicit_second_rollback_changes_nothing sampleTable (by decide) (by decide) (by decide) (by decide)).2

theorem start_calls (t : Table) (faults : Nat → Bool) (panics : Bool) :
    (DB.start t faults panics).calls = [] ∧ (DB.start t faults panics).committed = t := by
  simp [DB.start, DB.calls]

/-- C4: in `explicitSavepointExample`, when `RollbackTo("sp_explicit")` (which
is only called after the nested transaction returned an error) itself returns
an error, whatever else the environment does: the process exits through
`log.Fatalf` with that error, `outerTx.Rollback` is invoked, `Commit` is never
invoked, and the committed table is the initial one. -/
theorem explicit_rollbackTo_failure_is_fatal (t : Table) (faults : Nat → Bool) (panics : Bool)
    (rb : Result)
    (hcall : (Call.RollbackTo Origin.caller spExplicit, rb)
      ∈ (explicitSavepointExample (DB.start t faults panics)).2.calls)
    (hrb : rb.Error ≠ none) :
    (explicitSavepointExample (DB.start t faults panics)).1 = Exit.fatal
    ∧ (explicitSavepointExample (DB.start t faults panics)).2.invoked Call.Rollback = true
    ∧ (explicitSavepointExample (DB.start t faults panics)).2.invoked Call.Commit = false
    ∧ (explicitSavepointExample (DB.start t faults panics)).2.committed = t
    ∧ (∃ rbErr, rb.Error = some rbErr
        ∧ (explicitSavepointExample (DB.start t faults panics)).2.log.getLast? =
          some (LogEntry.Fatalf "Explicit: SavePoint 롤백 실패: %v" rbErr)) := by
  have hp := explicit_paths (DB.start t faults panics)
  have hs := start_calls t faults panics
  generalize explicitSavepointExample (DB.start t faults panics) = X at hp hcall ⊢
  simp only [ExplicitRun, hs.1, hs.2, List.nil_append] at hp
  rcases hp with ⟨b, h1, h2, h3, h4⟩ | ⟨b, c, r, h1, h2, h3, h4, h5⟩ |
    ⟨b, c, s, r, h1, h2, h3, h4, h5, h6⟩ | ⟨b, c, s, o, n, h1, h2, h3, ⟨spID, hN⟩, hT⟩
  · simp [h3] at hcall
  · simp [h4] at hcall
  · simp [h5] at hcall
  · rcases hT with ⟨ko, kx, hc, kcom⟩ | ⟨ko, cm, hc, kret, kfat⟩ | ⟨e1, rb1, ko, krb, cm, hc, kret, kfat⟩ |
      ⟨e1, rb1, rbErr, r, ko, krb, kx, hc, kcom, klog⟩
    · rcases hN with ⟨h, g1, go, hn⟩ | ⟨h, hr, g1, go, hn⟩ | ⟨h, u, hr, e, g1, g2, go, hn⟩ |
        ⟨h, u, g1, g2, g3, go, hn⟩ <;> subst hn <;> simp [hc, spExplicit] at hcall
    · rcases hN with ⟨h, g1, go, hn⟩ | ⟨h, hr, g1, go, hn⟩ | ⟨h, u, hr, e, g1, g2, go, hn⟩ |
        ⟨h, u, g1, g2, g3, go, hn⟩ <;> subst hn <;> simp [hc, spExplicit] at hcall
    · have hrb1 : rb = rb1 := by
        rcases hN with ⟨h, g1, go, hn⟩ | ⟨h, hr, g1, go, hn⟩ | ⟨h, u, hr, e, g1, g2, go, hn⟩ |
          ⟨h, u, g1, g2, g3, go, hn⟩ <;> subst hn <;> simpa [hc, spExplicit] using hcall
      exact absurd (hrb1 ▸ krb) hrb
    · have hrb1 : rb = rb1 := by
        rcases hN with ⟨h, g1, go, hn⟩ | ⟨h, hr, g1, go, hn⟩ | ⟨h, u, hr, e, g1, g2, go, hn⟩ |
          ⟨h, u, g1, g2, g3, go, hn⟩ <;> subst hn <;> simpa [hc, spExplicit] using hcall
      have hinv : X.2.invoked Call.Rollback = true ∧ X.2.invoked Call.Commit = false := by
        rcases hN with ⟨h, g1, go, hn⟩ | ⟨h, hr, g1, go, hn⟩ | ⟨h, u, hr, e, g1, g2, go, hn⟩ |
          ⟨h, u, g1, g2, g3, go, hn⟩ <;> subst hn <;> simp [DB.invoked, hc]
      exact ⟨kx, hinv.1, hinv.2, kcom, rbErr, hrb1 ▸ krb, klog⟩

/-- C4 at `sampleTable` when the seventh call of the run, the caller's
`RollbackTo`, fails. -/
theorem explicit_rollbackTo_failure_is_fatal_witness :
    (explicitSavepointExample (DB.start sampleTable (failAt 6) false)).1 = Exit.fatal
    ∧ (explicitSavepointExample (DB.start sampleTable (failAt 6) false)).2.invoked Call.Rollback = true
    ∧ (explicitSavepointExample (DB.start sampleTable (failAt 6) false)).2.invoked Call.Commit = false
    ∧ (explicitSavepointExample (DB.start sampleTable (failAt 6) false)).2.committed = sampleTable
    ∧ (∃ rbErr, (failed Err.RollbackError).Error = some rbErr
        ∧ (explicitSavepointExample (DB.start sampleTable (failAt 6) false)).2.log.getLast? =
          some (LogEntry.Fatalf "Explicit: SavePoint 롤백 실패: %v" rbErr)) :=
  explicit_rollbackTo_failure_is_fatal sampleTable (failAt 6) false (failed Err.RollbackError)
    (by decide) (by decide)

/-- C6, as stated, fails: with a panic raised inside the nested function,
`Begin` has succeeded, the panic leaves `explicitSavepointExample` (and
`implicitSavepointExample`), and neither `Commit` nor `Rollback` was invoked on
the outer transaction; only the helper rolled back to its own savepoint. -/
theorem panic_leaves_outer_transaction_open :
    ((Call.Begin, ok 0) ∈ (explicitSavepointExample (DB.start sampleTable noFaults true)).2.calls
      ∧ (explicitSavepointExample (DB.start sampleTable noFaults true)).1 = Exit.panicked
      ∧ (explicitSavepointExample (DB.start sampleTable noFaults true)).2.invoked Call.Commit = false
      ∧ (explicitSavepointExample (DB.start sampleTable noFaults true)).2.invoked Call.Rollback = false
      ∧ (explicitSavepointExample (DB.start sampleTable noFaults true)).2.invoked
          (Call.RollbackTo Origin.helper (SpName.internal 3)) = true)
    ∧ ((Call.Begin, ok 0) ∈ (implicitSavepointExample (DB.start sampleTable noFaults true)).2.calls
      ∧ (implicitSavepointExample (DB.start sampleTable noFaults true)).1 = Exit.panicked
      ∧ (implicitSavepointExample (DB.start sampleTable noFaults true)).2.invoked Call.Commit = false
      ∧ (implicitSavepointExample (DB.start sampleTable noFaults true)).2.invoked Call.Rollback = false
      ∧ (implicitSavepointExample (DB.start sampleTable noFaults true)).2.invoked
          (Call.RollbackTo Origin.helper (SpName.internal 2)) = true) := by
  decide

/-- C6, amended: in both examples, once `Begin` has succeeded, every path that
leaves the function or ends the process otherwise than by a panic (creation
failure, savepoint-creation failure, rollback-to-savepoint failure, commit
failure, normal return) has invoked `Commit` or `Rollback` on the outer
transaction; a panic raised inside the nested function leaves the function
with neither invoked. -/
theorem outer_transaction_released_unless_panic (t : Table) (faults : Nat → Bool) (panics : Bool) :
    ((∃ b, (Call.Begin, b) ∈ (explicitSavepointExample (DB.start t faults panics)).2.calls ∧ b.Error = none) →
      ((explicitSavepointExample (DB.start t faults panics)).1 ≠ Exit.panicked →
        (explicitSavepointExample (DB.start t faults panics)).2.invoked Call.Commit = true
        ∨ (explicitSavepointExample (DB.start t faults panics)).2.invoked Call.Rollback = true)
      ∧ ((explicitSavepointExample (DB.start t faults panics)).1 = Exit.panicked →
        (explicitSavepointExample (DB.start t faults panics)).2.invoked Call.Commit = false
        ∧ (explicitSavepointExample (DB.start t faults panics)).2.invoked Call.Rollback = false))
    ∧ ((∃ b, (Call.Begin, b) ∈ (implicitSavepointExample (DB.start t faults panics)).2.calls ∧ b.Error = none) →
      ((implicitSavepointExample (DB.start t faults panics)).1 ≠ Exit.panicked →
        (implicitSavepointExample (DB.start t faults panics)).2.invoked Call.Commit = true
        ∨ (implicitSavepointExample (DB.start t faults panics)).2.invoked Call.Rollback = true)
      ∧ ((implicitSavepointExample (DB.start t faults panics)).1 = Exit.panicked →
        (implicitSavepointExample (DB.start t faults panics)).2.invoked Call.Commit = false
        ∧ (implicitSavepointExample (DB.start t faults panics)).2.invoked Call.Rollback = false)) := by
  have hs := start_calls t faults panics
  constructor
  · have hp := explicit_paths (DB.start t faults panics)
    generalize explicitSavepointExample (DB.start t faults panics) = X at hp ⊢
    simp only [ExplicitRun, hs.1, hs.2, List.nil_append] at hp
    rintro ⟨b0, hb0, hb0E⟩
    rcases hp with ⟨b, h1, h2, h3, h4⟩ | ⟨b, c, r, h1, h2, h3, h4, h5⟩ |
      ⟨b, c, s, r, h1, h2, h3, h4, h5, h6⟩ | ⟨b, c, s, o, n, h1, h2, h3, ⟨spID, hN⟩, hT⟩
    · simp [h3] at hb0
      exact absurd (hb0 ▸ hb0E) h1
    · simp [DB.invoked, h4, h3]
    · simp [DB.invoked, h5, h4]
    · rcases hT with ⟨ko, kx, hc, kcom⟩ | ⟨ko, cm, hc, kret, kfat⟩ |
        ⟨e1, rb1, ko, krb, cm, hc, kret, kfat⟩ | ⟨e1, rb1, rbErr, r, ko, krb, kx, hc, kcom, klog⟩
      · rcases hN with ⟨h, g1, go, hn⟩ | ⟨h, hr, g1, go, hn⟩ | ⟨h, u, hr, e, g1, g2, go, hn⟩ |
          ⟨h, u, g1, g2, g3, go, hn⟩ <;> subst hn <;> simp [DB.invoked, hc, kx]
      · rcases hN with ⟨h, g1, go, hn⟩ | ⟨h, hr, g1, go, hn⟩ | ⟨h, u, hr, e, g1, g2, go, hn⟩ |
          ⟨h, u, g1, g2, g3, go, hn⟩ <;> subst hn <;>
        cases hcm : cm.Error <;> simp [DB.invoked, hc, kret, kfat, hcm]
      · rcases hN with ⟨h, g1, go, hn⟩ | ⟨h, hr, g1, go, hn⟩ | ⟨h, u, hr, e, g1, g2, go, hn⟩ |
          ⟨h, u, g1, g2, g3, go, hn⟩ <;> subst hn <;>
        cases hcm : cm.Error <;> simp [DB.invoked, hc, kret, kfat, hcm]
      · rcases hN with ⟨h, g1, go, hn⟩ | ⟨h, hr, g1, go, hn⟩ | ⟨h, u, hr, e, g1, g2, go, hn⟩ |
          ⟨h, u, g1, g2, g3, go, hn⟩ <;> subst hn <;> simp [DB.invoked, hc, kx]
  · have hp := implicit_paths (DB.start t faults panics)
    generalize implicitSavepointExample (DB.start t faults panics) = X at hp ⊢
    simp only [ImplicitRun, hs.1, hs.2, List.nil_append] at hp
    rintro ⟨b0, hb0, hb0E⟩
    rcases hp with ⟨b, h1, h2, h3, h4⟩ | ⟨b, c, r, h1, h2, h3, h4, h5⟩ |
      ⟨b, c, o, n, h1, h2, ⟨spID, hN⟩, hT⟩
    · simp [h3] at hb0
      exact absurd (hb0 ▸ hb0E) h1
    · simp [DB.invoked, h4, h3]
    · rcases hT with ⟨ko, kx, hc, kcom⟩ | ⟨err, ko, cm, hc, kret, kfat⟩
      · rcases hN with ⟨h, g1, go, hn⟩ | ⟨h, hr, g1, go, hn⟩ | ⟨h, u, hr, e, g1, g2, go, hn⟩ |
          ⟨h, u, g1, g2, g3, go, hn⟩ <;> subst hn <;> simp [DB.invoked, hc, kx]
      · rcases hN with ⟨h, g1, go, hn⟩ | ⟨h, hr, g1, go, hn⟩ | ⟨h, u, hr, e, g1, g2, go, hn⟩ |
          ⟨h, u, g1, g2, g3, go, hn⟩ <;> subst hn <;>
        cases hcm : cm.Error <;> simp [DB.invoked, hc, kret, kfat, hcm]

/-- The amended C6 at `sampleTable` when the caller's `RollbackTo` fails in the
explicit example (the run ends in `Rollback`) and nothing fails in the implicit
one (the run ends in `Commit`). -/
theorem outer_transaction_released_unless_panic_witness :
    ((explicitSavepointExample (DB.start sampleTable (failAt 6) false)).2.invoked Call.Commit = true
      ∨ (explicitSavepointExample (DB.start sampleTable (failAt 6) false)).2.invoked Call.Rollback = true)
    ∧ ((implicitSavepointExample (DB.start sampleTable (failAt 6) false)).2.invoked Call.Commit = true
      ∨ (implicitSavepointExample (DB.start sampleTable (failAt 6) false)).2.invoked Call.Rollback = true) :=
  ⟨((outer_transaction_released_unless_panic sampleTable (failAt 6) false).1
      ⟨ok 0, by decide, rfl⟩).1 (by decide),
    ((outer_transaction_released_unless_panic sampleTable (failAt 6) false).2
      ⟨ok 0, by decide, rfl⟩).1 (by decide)⟩

end Session02

/-! ## Theorems about session01 -/

namespace Session01

/-- C10: `main` of session01, no database call failing, on any prior content
of the User table and whether or not the model has a soft-delete column: the
final `Find` returns exactly "Updated Potato" (potato@example.com, 11) and
"Tomato" (tomato@example.com, 20), in insertion order; the Carrot record is not
in the result, and each update changed only the fields it names. -/
theorem main_final_users (t : Table) (softDelete : Bool) :
    (main (DB.start t softDelete noFaults)).1 = Exit.returned
    ∧ (main (DB.start t softDelete noFaults)).2.log.getLast? =
        some (LogEntry.OutUsers "최종 사용자 목록: %v\n"
          [{ ID := 1, Deleted := false, Name := "Updated Potato", Email := "potato@example.com", Age := 11 },
           { ID := 2, Deleted := false, Name := "Tomato", Email := "tomato@example.com", Age := 20 }])
    ∧ (main (DB.start t softDelete noFaults)).2.table.rows.filter live =
        [{ ID := 1, Deleted := false, Name := "Updated Potato", Email := "potato@example.com", Age := 11 },
         { ID := 2, Deleted := false, Name := "Tomato", Email := "tomato@example.com", Age := 20 }]
    ∧ (∀ u ∈ (main (DB.start t softDelete noFaults)).2.table.rows.filter live,
        u.Email ≠ "carrot@example.com") := by
  cases softDelete <;>
    simp [main, mainSave, mainUpdates, mainDelete, mainFinal, InitDB, Open, DropTable, AutoMigrate, Create,
      Find, First, Save, UpdateAge, UpdatesNameAge, Delete, numbered, live, DB.start, DB.faulty, DB.called,
      DB.logged, noFaults, Table.nextID, maxID]

end Session01
